import Mathlib

/-!
Shallow embedding of the MIR type-check pass
(`src/librustc_mir/transform/type_check.rs`): the `TypeVerifier` place
resolver, the `TypeChecker` flow-sensitive checker, the cleanup-block
invariant checker, the sizedness checker and the `TypeckMir` pass driver.

Types, places, operands, statements and terminators are modelled as plain
inductive data, with generic substitutions already applied (variant field
types are carried inline).  External collaborators (the inference context,
trait-obligation solver, `tcx.type_of`, sizedness queries and the
`box_free` lang item) are modelled as an explicit context record `Ctx`;
diagnostics are accumulated in explicit state records instead of being
sent to the session sink.
-/

mutual
/-- MIR types, after substitution.  Mirrors the `TypeVariants` cases the
checker inspects: error markers, unresolved inference placeholders,
escaping (scope-bound) variables, primitives, raw pointers, references,
owning boxes, arrays/slices, tuples, ADTs (with their variants' field
types inline), closures (upvar types), generators (upvar and state-field
types), and function items/pointers (with their signature inline). -/
inductive Ty where
  | err : Ty
  | infer : Ty
  | escaping : Ty
  | bool : Ty
  | char : Ty
  | usize : Ty
  | int : Nat → Ty
  | never : Ty
  | rawPtr : Ty → Ty
  | ref : Ty → Ty
  | boxOf : Ty → Ty
  | array : Ty → Nat → Ty
  | slice : Ty → Ty
  | tuple : TyList → Ty
  | adt : Nat → Bool → VariantList → Ty
  | closure : Nat → TyList → Ty
  | generator : Nat → TyList → TyList → Ty
  | fnDef : Nat → TyList → Ty → Bool → Ty
  | fnPtr : TyList → Ty → Bool → Ty
  deriving DecidableEq, Repr

/-- A list of types (the element lists of tuples, upvars, fields …). -/
inductive TyList where
  | nil : TyList
  | cons : Ty → TyList → TyList
  deriving DecidableEq, Repr

/-- The variants of an ADT, each one the list of its field types. -/
inductive VariantList where
  | nil : VariantList
  | cons : TyList → VariantList → VariantList
  deriving DecidableEq, Repr
end

def TyList.get? : TyList → Nat → Option Ty
  | .nil, _ => none
  | .cons t _, 0 => some t
  | .cons _ ts, n + 1 => ts.get? n

def TyList.length : TyList → Nat
  | .nil => 0
  | .cons _ ts => ts.length + 1

def TyList.toList : TyList → List Ty
  | .nil => []
  | .cons t ts => t :: ts.toList

def VariantList.get? : VariantList → Nat → Option TyList
  | .nil, _ => none
  | .cons v _, 0 => some v
  | .cons _ vs, n + 1 => vs.get? n

def VariantList.length : VariantList → Nat
  | .nil => 0
  | .cons _ vs => vs.length + 1

mutual
/-- Generic deep search through a type, used for the `needs_infer`,
`has_escaping_regions` and `references_error` flags (rustc computes these
as recursive type flags). -/
def tyAny (p : Ty → Bool) (t : Ty) : Bool :=
  p t ||
  match t with
  | .rawPtr u => tyAny p u
  | .ref u => tyAny p u
  | .boxOf u => tyAny p u
  | .slice u => tyAny p u
  | .array u _ => tyAny p u
  | .tuple ts => tyListAny p ts
  | .adt _ _ vs => variantListAny p vs
  | .closure _ us => tyListAny p us
  | .generator _ us fs => tyListAny p us || tyListAny p fs
  | .fnDef _ ins out _ => tyListAny p ins || tyAny p out
  | .fnPtr ins out _ => tyListAny p ins || tyAny p out
  | _ => false

def tyListAny (p : Ty → Bool) : TyList → Bool
  | .nil => false
  | .cons t ts => tyAny p t || tyListAny p ts

def variantListAny (p : Ty → Bool) : VariantList → Bool
  | .nil => false
  | .cons v vs => tyListAny p v || variantListAny p vs
end

/-- `ty.needs_infer()`: the type contains an unresolved inference
placeholder. -/
def Ty.needs_infer (t : Ty) : Bool :=
  tyAny (fun u => match u with | .infer => true | _ => false) t

/-- `ty.has_escaping_regions()`: the type contains a variable whose
binding scope has been exited. -/
def Ty.has_escaping_regions (t : Ty) : Bool :=
  tyAny (fun u => match u with | .escaping => true | _ => false) t

/-- `ty.references_error()`: the type contains the error marker. -/
def Ty.references_error (t : Ty) : Bool :=
  tyAny (fun u => match u with | .err => true | _ => false) t

/-- `base_ty.builtin_deref(true, NoPreference)`: the pointee of a raw
pointer, reference or owning box. -/
def Ty.builtin_deref : Ty → Option Ty
  | .rawPtr t => some t
  | .ref t => some t
  | .boxOf t => some t
  | _ => none

/-- `base_ty.builtin_index()`: the element type of an array or slice. -/
def Ty.builtin_index : Ty → Option Ty
  | .array t _ => some t
  | .slice t => some t
  | _ => none

def Ty.is_integral : Ty → Bool
  | .int _ => true
  | .usize => true
  | _ => false

def Ty.is_char : Ty → Bool
  | .char => true
  | _ => false

def Ty.is_bool : Ty → Bool
  | .bool => true
  | _ => false

def Ty.is_never : Ty → Bool
  | .never => true
  | _ => false

/-- A function signature, with late-bound regions already erased:
`inputs`, `output` and the `variadic` flag. -/
structure FnSig where
  inputs : List Ty
  output : Ty
  variadic : Bool
  deriving DecidableEq, Repr

/-- `func_ty.fn_sig(tcx)`, defined on `TyFnDef` and `TyFnPtr`. -/
def Ty.fn_sig : Ty → Option FnSig
  | .fnDef _ ins out v => some ⟨ins.toList, out, v⟩
  | .fnPtr ins out v => some ⟨ins.toList, out, v⟩
  | _ => none

/-- A place (`Lvalue`): a local, a static item with its attached declared
type, or a projection applied to a base place. -/
inductive LvalueElem where
  | deref : LvalueElem
  | index : Nat → LvalueElem
  | constantIndex : Nat → Nat → Bool → LvalueElem
  | subslice : Nat → Nat → LvalueElem
  | downcast : Nat → Nat → LvalueElem
  | field : Nat → Ty → LvalueElem
  deriving DecidableEq, Repr

inductive Lvalue where
  | localVar : Nat → Lvalue
  | staticItem : Nat → Ty → Lvalue
  | projection : Lvalue → LvalueElem → Lvalue
  deriving DecidableEq, Repr

/-- `LvalueTy`: either a flat type, or a downcast-resolved
(ADT, variant-index) pair.  The ADT's identity, enum flag and variants
are carried inline (substitutions applied). -/
inductive LvalueTy where
  | ty : Ty → LvalueTy
  | downcast : Nat → Bool → VariantList → Nat → LvalueTy
  deriving DecidableEq, Repr

/-- `LvalueTy::to_ty`: collapse a downcast back to the ADT's type. -/
def LvalueTy.to_ty : LvalueTy → Ty
  | .ty t => t
  | .downcast id isEnum vs _ => .adt id isEnum vs

/-- An operand: a place read, or a constant carrying its type; the
optional `Nat` is the `DefId` when the constant's literal is
`ConstVal::Function(def_id, _)`. -/
inductive Operand where
  | consume : Lvalue → Operand
  | constant : Ty → Option Nat → Operand
  deriving DecidableEq, Repr

/-- Rvalues, restricted to the shapes the claims exercise. -/
inductive Rvalue where
  | use : Operand → Rvalue
  | refOf : Lvalue → Rvalue
  deriving DecidableEq, Repr

inductive StatementKind where
  | assign : Lvalue → Rvalue → StatementKind
  | setDiscriminant : Lvalue → Nat → StatementKind
  | storageLive : Nat → StatementKind
  | storageDead : Nat → StatementKind
  | nop : StatementKind
  deriving DecidableEq, Repr

/-- Terminators.  `assert`'s optional pair is the `BoundsCheck`
length/index operands; `call`'s destination is a place and target
block. -/
inductive TerminatorKind where
  | goto : Nat → TerminatorKind
  | switchInt : Operand → Ty → List Nat → TerminatorKind
  | resume : TerminatorKind
  | ret : TerminatorKind
  | unreachable : TerminatorKind
  | drop : Lvalue → Nat → Option Nat → TerminatorKind
  | dropAndReplace : Lvalue → Operand → Nat → Option Nat → TerminatorKind
  | call : Operand → List Operand → Option (Lvalue × Nat) → Option Nat → TerminatorKind
  | assert : Operand → Option (Operand × Operand) → Nat → Option Nat → TerminatorKind
  | yield : Operand → Nat → Option Nat → TerminatorKind
  | generatorDrop : TerminatorKind
  | falseEdges : Nat → List Nat → TerminatorKind
  deriving DecidableEq, Repr

structure BasicBlockData where
  statements : List StatementKind
  terminator : TerminatorKind
  is_cleanup : Bool
  deriving DecidableEq, Repr

structure LocalDecl where
  ty : Ty
  span : Nat
  deriving DecidableEq, Repr

structure Mir where
  local_decls : List LocalDecl
  arg_count : Nat
  return_ty : Ty
  yield_ty : Option Ty
  basic_blocks : List BasicBlockData
  deriving DecidableEq, Repr

def Mir.block (mir : Mir) (bb : Nat) : BasicBlockData :=
  mir.basic_blocks.getD bb ⟨[], .unreachable, false⟩

def Mir.local_ty (mir : Mir) (l : Nat) : Ty :=
  (mir.local_decls.getD l ⟨.err, 0⟩).ty

inductive LocalKind where
  | returnPointer : LocalKind
  | arg : LocalKind
  | var : LocalKind
  deriving DecidableEq, Repr

/-- `mir.local_kind(local)`: slot 0 is the return pointer, the next
`arg_count` slots are arguments, the rest are user variables and
temporaries (merged here, both are checked identically). -/
def Mir.local_kind (mir : Mir) (l : Nat) : LocalKind :=
  if l = 0 then .returnPointer
  else if l ≤ mir.arg_count then .arg
  else .var

structure Location where
  block : Nat
  statement_index : Nat
  deriving DecidableEq, Repr

def Location.successor_within_block (l : Location) : Location :=
  ⟨l.block, l.statement_index + 1⟩

/-- `BasicBlock::start_location()`. -/
def start_location (bb : Nat) : Location := ⟨bb, 0⟩

/-- Modelled from the spec: the external collaborators of the checker
(§4.2, §6), which live outside `src/`: the type-relation service
(`equate` / `subtype` / `normalize`, each forced to full obligation
discharge and reported as a boolean outcome), the global type
environment (`tcx.type_of` for statics), the ambient-parameter-environment
sizedness query (`ty.is_sized`), and the `box_free` lang item identity
(`tcx.lang_items().box_free_fn()`). -/
structure Ctx where
  eqOk : Ty → Ty → Bool
  subOk : Ty → Ty → Bool
  normTy : Ty → Ty
  typeOf : Nat → Ty
  isSized : Ty → Bool
  box_free_fn : Option Nat

/-- `TypeChecker::sub_types(sub, sup, _at_location)`; as in the source
the location argument is accepted but not consulted by the relation. -/
def sub_types (ctx : Ctx) (sub sup : Ty) (_at_location : Location) : Bool :=
  ctx.subOk sub sup

/-- `TypeChecker::eq_types(_span, a, b, _at_location)`. -/
def eq_types (ctx : Ctx) (a b : Ty) (_at_location : Location) : Bool :=
  ctx.eqOk a b

/-- Modelled from the spec: `normalize` on a whole signature (§4.2)
resolves embedded projections componentwise. -/
def normalize_sig (ctx : Ctx) (sig : FnSig) : FnSig :=
  ⟨sig.inputs.map ctx.normTy, ctx.normTy sig.output, sig.variadic⟩

/-- The internal broken-MIR bug reports, one constructor per
`span_mirbug` call site in the pass (message payloads reduced to the
indices the messages interpolate). -/
inductive Bug where
  | badType : Bug
  | badStaticType : Bug
  | derefNonPointer : Bug
  | indexByNonUsize : Bug
  | indexOfNonArray : Bug
  | tooSmallSlice : Bug
  | sliceOfNonArray : Bug
  | variantOutOfRange : Nat → Nat → Bug
  | cantDowncast : Bug
  | badFieldAccess : Bug
  | fieldOutOfRange : Nat → Nat → Bug
  | cantProjectOutOf : Bug
  | badAssignment : Bug
  | setDiscrNotEnum : Bug
  | setDiscrOutOfRange : Bug
  | badDropAndReplace : Bug
  | badSwitchInt : Bug
  | badSwitchIntDiscrTy : Bug
  | callToNonFunction : Bug
  | callDestMismatch : Bug
  | callConvergingNoDest : Bug
  | wrongNumberOfArgs : Bug
  | badArg : Nat → Bug
  | boxFreeShouldTake1Arg : Bug
  | boxFreeNonRawPtr : Bug
  | boxFreeWrongArgCount : Bug
  | boxFreeBadArgTy : Bug
  | badBoxFreeArg : Bug
  | badAssertCond : Bug
  | boundsCheckLenNonUsize : Bug
  | boundsCheckIndexNonUsize : Bug
  | yieldInNonGenerator : Bug
  | badYield : Bug
  | resumeOnNonCleanup : Bug
  | returnOnCleanup : Bug
  | generatorDropInCleanup : Bug
  | yieldInCleanup : Bug
  | cleanupMismatch : Nat → Bool → Bug
  | unwindOnCleanup : Bug
  | cleanupOnCleanup : Bug
  deriving DecidableEq, Repr

/-- The `TypeVerifier`'s mutable state: the bug reports sent to the
diagnostic sink by `span_mirbug`, and the `errors_reported` flag (set
only by `span_mirbug_and_err`, i.e. by `TypeVerifier::error()`). -/
structure VState where
  bugs : List Bug
  errors_reported : Bool
  deriving DecidableEq, Repr

/-- `span_mirbug!`: report a broken-MIR bug (does not set
`errors_reported`). -/
def VState.report (s : VState) (b : Bug) : VState :=
  { s with bugs := s.bugs ++ [b] }

/-- `span_mirbug_and_err!`: report a bug, set `errors_reported` and
produce `tcx.types.err`. -/
def VState.report_err (s : VState) (b : Bug) : VState × Ty :=
  ({ bugs := s.bugs ++ [b], errors_reported := true }, .err)

/-- `FieldAccessError`, carrying the field count the out-of-range
message interpolates. -/
inductive FieldAccessError where
  | outOfRange : Nat → FieldAccessError
  deriving DecidableEq, Repr

/-- `TypeVerifier::sanitize_type`: fail with a "bad type" bug and the
error type if the type still contains inference placeholders, escaping
variables, or an error marker; otherwise return it unchanged. -/
def sanitize_type (s : VState) (ty : Ty) : VState × Ty :=
  if ty.needs_infer || ty.has_escaping_regions || ty.references_error then
    s.report_err .badType
  else (s, ty)

/-- `TypeVerifier::field_ty`: resolve the structural type of field
`field` of `base_ty`.  Downcast bases use the recorded variant; plain
bases dispatch on univariant ADTs, closures (upvar types), generators
(upvar types first, then state-field types), and tuples; any other base
is a hard "can't project out of" bug yielding `Ok(err)`.  ADT field
types are passed through normalization. -/
def field_ty (ctx : Ctx) (s : VState) (base_ty : LvalueTy) (field : Nat) :
    VState × Except FieldAccessError Ty :=
  let variantSubsts : Option TyList :=
    match base_ty with
    | .downcast _ _ vs variant_index => some (vs.get? variant_index |>.getD .nil)
    | .ty t =>
      match t with
      | .adt _ _ vs => if vs.length = 1 then some (vs.get? 0 |>.getD .nil) else none
      | _ => none
  match variantSubsts with
  | some variant =>
    match variant.get? field with
    | some fty => (s, .ok (ctx.normTy fty))
    | none => (s, .error (.outOfRange variant.length))
  | none =>
    match base_ty with
    | .ty (.closure _ upvars) =>
      (s, match upvars.get? field with
          | some ty => .ok ty
          | none => .error (.outOfRange upvars.length))
    | .ty (.generator _ upvars fields) =>
      (s, match upvars.get? field with
          | some ty => .ok ty
          | none =>
            match fields.get? field with
            | some ty => .ok ty
            | none => .error (.outOfRange (fields.length + 1)))
    | .ty (.tuple tys) =>
      (s, match tys.get? field with
          | some ty => .ok ty
          | none => .error (.outOfRange tys.length))
    | _ =>
      let (s, e) := s.report_err .cantProjectOutOf
      (s, .ok e)

/-- `TypeVerifier::sanitize_projection`: validate one projection element
against the resolved base and produce the projected `LvalueTy`. -/
def sanitize_projection (ctx : Ctx) (mir : Mir) (s : VState)
    (base : LvalueTy) (pi : LvalueElem) : VState × LvalueTy :=
  let base_ty := base.to_ty
  match pi with
  | .deref =>
    match base_ty.builtin_deref with
    | some t => (s, .ty t)
    | none =>
      let (s, e) := s.report_err .derefNonPointer
      (s, .ty e)
  | .index i =>
    let index_ty := mir.local_ty i
    if index_ty ≠ .usize then
      let (s, e) := s.report_err .indexByNonUsize
      (s, .ty e)
    else
      match base_ty.builtin_index with
      | some t => (s, .ty t)
      | none =>
        let (s, e) := s.report_err .indexOfNonArray
        (s, .ty e)
  | .constantIndex _ _ _ =>
    match base_ty.builtin_index with
    | some t => (s, .ty t)
    | none =>
      let (s, e) := s.report_err .indexOfNonArray
      (s, .ty e)
  | .subslice fm tn =>
    match base_ty with
    | .array inner size =>
      if fm + tn ≤ size then (s, .ty (.array inner (size - (fm + tn))))
      else
        let (s, e) := s.report_err .tooSmallSlice
        (s, .ty e)
    | .slice _ => (s, .ty base_ty)
    | _ =>
      let (s, e) := s.report_err .sliceOfNonArray
      (s, .ty e)
  | .downcast adt_id index =>
    match base_ty with
    | .adt id isEnum vs =>
      if isEnum && id = adt_id then
        if index ≥ vs.length then
          let (s, e) := s.report_err (.variantOutOfRange index vs.length)
          (s, .ty e)
        else (s, .downcast id isEnum vs index)
      else
        let (s, e) := s.report_err .cantDowncast
        (s, .ty e)
    | _ =>
      let (s, e) := s.report_err .cantDowncast
      (s, .ty e)
  | .field field fty =>
    let (s, fty) := sanitize_type s fty
    match field_ty ctx s base field with
    | (s, .ok ty) =>
      if eq_types ctx ty fty ⟨0, 0⟩ then (s, .ty fty)
      else (s.report .badFieldAccess, .ty fty)
    | (s, .error (.outOfRange field_count)) =>
      (s.report (.fieldOutOfRange field field_count), .ty fty)

/-- `TypeVerifier::sanitize_lvalue`: a local yields its declared type; a
static sanitizes its attached type, fetches and normalizes the item's
true type and equates the two (a "bad static type" bug on mismatch); a
projection resolves its base first, short-circuiting to the error type
(without further complaint) when the base already carries one. -/
def sanitize_lvalue (ctx : Ctx) (mir : Mir) (s : VState) :
    Lvalue → VState × LvalueTy
  | .localVar index => (s, .ty (mir.local_ty index))
  | .staticItem def_id sty =>
    let (s, sty) := sanitize_type s sty
    let ty := ctx.normTy (ctx.typeOf def_id)
    let s := if eq_types ctx ty sty ⟨0, 0⟩ then s else s.report .badStaticType
    (s, .ty sty)
  | .projection base elem =>
    let (s, base_ty) := sanitize_lvalue ctx mir s base
    match base_ty with
    | .ty t =>
      if t.references_error then (s, .ty .err)
      else sanitize_projection ctx mir s base_ty elem
    | _ => sanitize_projection ctx mir s base_ty elem

/-- Modelled from the spec: the structural place/operand/rvalue typing
of the IR layer (`rustc::mir::tcx`, not under `src/`) — "a place's type
is always derivable structurally from its base and projection kind"
(§3); a field projection's type is its redundantly-stored declared
type.  Positions where the structural type is undefined produce the
error marker. -/
def lvalue_ty (mir : Mir) : Lvalue → LvalueTy
  | .localVar index => .ty (mir.local_ty index)
  | .staticItem _ sty => .ty sty
  | .projection base elem =>
    let bt := (lvalue_ty mir base).to_ty
    match elem with
    | .deref => .ty (bt.builtin_deref.getD .err)
    | .index _ => .ty (bt.builtin_index.getD .err)
    | .constantIndex _ _ _ => .ty (bt.builtin_index.getD .err)
    | .subslice fm tn =>
      match bt with
      | .array inner size =>
        .ty (if fm + tn ≤ size then .array inner (size - (fm + tn)) else .err)
      | .slice inner => .ty (.slice inner)
      | _ => .ty .err
    | .downcast adt_id index =>
      match bt with
      | .adt id isEnum vs =>
        if isEnum && id = adt_id then .downcast id isEnum vs index else .ty .err
      | _ => .ty .err
    | .field _ fty => .ty fty

/-- Modelled from the spec: `Operand::ty` (§3) — a place read has the
place's structural type, a constant carries its own type. -/
def operand_ty (mir : Mir) : Operand → Ty
  | .consume lv => (lvalue_ty mir lv).to_ty
  | .constant t _ => t

/-- Modelled from the spec: `Rvalue::ty` (§3) — derived structurally
from the operands and the rvalue's own kind. -/
def rvalue_ty (mir : Mir) : Rvalue → Ty
  | .use op => operand_ty mir op
  | .refOf lv => .ref ((lvalue_ty mir lv).to_ty)

/-- `TypeVerifier::visit_operand` (via the MIR visitor's
`super_operand`): a consumed place is sanitized; a constant's type is
sanitized (`visit_constant`). -/
def visit_operand (ctx : Ctx) (mir : Mir) (s : VState) : Operand → VState
  | .consume lv => (sanitize_lvalue ctx mir s lv).1
  | .constant t _ => (sanitize_type s t).1

/-- `TypeVerifier::visit_rvalue`: visit the rvalue's operands, then
sanitize the rvalue's derived type. -/
def visit_rvalue (ctx : Ctx) (mir : Mir) (s : VState) (rv : Rvalue) : VState :=
  let s :=
    match rv with
    | .use op => visit_operand ctx mir s op
    | .refOf lv => (sanitize_lvalue ctx mir s lv).1
  (sanitize_type s (rvalue_ty mir rv)).1

/-- Modelled from the spec: the MIR visitor's statement dispatch
(`super_statement`, not under `src/`) — the statement's places and
operands are visited, which routes them through the sanitizers above. -/
def visit_statement (ctx : Ctx) (mir : Mir) (s : VState) : StatementKind → VState
  | .assign lv rv => visit_rvalue ctx mir (sanitize_lvalue ctx mir s lv).1 rv
  | .setDiscriminant lv _ => (sanitize_lvalue ctx mir s lv).1
  | _ => s

/-- Modelled from the spec: the MIR visitor's terminator dispatch
(`super_terminator`, not under `src/`) — every operand and place of the
terminator is visited. -/
def visit_terminator (ctx : Ctx) (mir : Mir) (s : VState) : TerminatorKind → VState
  | .switchInt discr _ _ => visit_operand ctx mir s discr
  | .call func args dest _ =>
    let s := visit_operand ctx mir s func
    let s := args.foldl (visit_operand ctx mir) s
    (match dest with
     | some (lv, _) => (sanitize_lvalue ctx mir s lv).1
     | none => s)
  | .drop lv _ _ => (sanitize_lvalue ctx mir s lv).1
  | .dropAndReplace lv value _ _ =>
    visit_operand ctx mir (sanitize_lvalue ctx mir s lv).1 value
  | .assert cond msg _ _ =>
    let s := visit_operand ctx mir s cond
    (match msg with
     | some (len, index) => visit_operand ctx mir (visit_operand ctx mir s len) index
     | none => s)
  | .yield value _ _ => visit_operand ctx mir s value
  | _ => s

/-- `TypeVerifier::visit_mir`: sanitize the return type and every
local's declared type; if any of those reported an error, skip the body
walk; otherwise walk every block's statements and terminator
(`super_mir`). -/
def visit_mir (ctx : Ctx) (mir : Mir) : VState :=
  let s := (sanitize_type ⟨[], false⟩ mir.return_ty).1
  let s := mir.local_decls.foldl (fun s d => (sanitize_type s d.ty).1) s
  if s.errors_reported then s
  else
    mir.basic_blocks.foldl
      (fun s bd =>
        let s := bd.statements.foldl (visit_statement ctx mir) s
        visit_terminator ctx mir s bd.terminator)
      s

/-- The `TypeChecker`'s mutable state: bug reports, the per-instance
sizedness dedup set `reported_errors` (keyed on (type, span)), and the
user-facing `E0161` sizedness diagnostics it emits. -/
structure CState where
  bugs : List Bug
  reported_errors : List (Ty × Nat)
  diags : List (Ty × Nat)
  deriving DecidableEq, Repr

/-- `span_mirbug!` inside the `TypeChecker`. -/
def CState.report (s : CState) (b : Bug) : CState :=
  { s with bugs := s.bugs ++ [b] }

/-- `TypeChecker::check_stmt`: an assignment re-derives both sides and
requires the rvalue's type to be a subtype of the place's type at the
next statement's location; a discriminant-set requires an enum place
and an in-range variant (hard `span_bug!`s in the source, modelled as
reports); the remaining statement kinds need no checks. -/
def check_stmt (ctx : Ctx) (mir : Mir) (s : CState)
    (stmt : StatementKind) (location : Location) : CState :=
  match stmt with
  | .assign lv rv =>
    let lv_ty := (lvalue_ty mir lv).to_ty
    let rv_ty := rvalue_ty mir rv
    if sub_types ctx rv_ty lv_ty location.successor_within_block then s
    else s.report .badAssignment
  | .setDiscriminant lv variant_index =>
    match (lvalue_ty mir lv).to_ty with
    | .adt _ true vs =>
      if variant_index ≥ vs.length then s.report .setDiscrOutOfRange else s
    | _ => s.report .setDiscrNotEnum
  | _ => s

/-- `TypeChecker::check_call_dest`: with a destination, the signature's
output must be a subtype of the destination's type at the target
block's start; without one, the output must be the never type. -/
def check_call_dest (ctx : Ctx) (mir : Mir) (s : CState) (sig : FnSig)
    (destination : Option (Lvalue × Nat)) : CState :=
  match destination with
  | some (dest, target_block) =>
    let dest_ty := (lvalue_ty mir dest).to_ty
    if sub_types ctx sig.output dest_ty (start_location target_block) then s
    else s.report .callDestMismatch
  | none =>
    if sig.output.is_never then s else s.report .callConvergingNoDest

/-- The per-argument subtype loop of `check_call_inputs`
(`sig.inputs().iter().zip(args).enumerate()`). -/
def check_args_loop (ctx : Ctx) (mir : Mir) (s : CState) (n : Nat)
    (location : Location) : List (Ty × Operand) → CState
  | [] => s
  | (fn_arg, op_arg) :: rest =>
    let op_arg_ty := operand_ty mir op_arg
    let s := if sub_types ctx op_arg_ty fn_arg location then s
             else s.report (.badArg n)
    check_args_loop ctx mir s (n + 1) location rest

/-- `TypeChecker::check_call_inputs`: an arity bug when the argument
count is below the parameter count, or above it on a non-variadic
signature; then each argument's type must be a subtype of its
positional parameter's type. -/
def check_call_inputs (ctx : Ctx) (mir : Mir) (s : CState) (sig : FnSig)
    (args : List Operand) (location : Location) : CState :=
  let s :=
    if args.length < sig.inputs.length ||
       (args.length > sig.inputs.length && !sig.variadic) then
      s.report .wrongNumberOfArgs
    else s
  check_args_loop ctx mir s 0 location (sig.inputs.zip args)

/-- `TypeChecker::is_box_free`: the operand is a function constant whose
`DefId` is the `box_free` lang item (stable identity, not a name
match). -/
def is_box_free (ctx : Ctx) (operand : Operand) : Bool :=
  match operand with
  | .constant _ (some def_id) => some def_id = ctx.box_free_fn
  | _ => false

/-- `TypeChecker::check_box_free_inputs`: the signature must take
exactly one raw-pointer parameter; the call must pass exactly one
argument; the argument's type, unwrapped through a raw pointer or an
owning box, must be a subtype of the signature's pointee type. -/
def check_box_free_inputs (ctx : Ctx) (mir : Mir) (s : CState) (sig : FnSig)
    (args : List Operand) (location : Location) : CState :=
  match sig.inputs with
  | [input0] =>
    match input0 with
    | .rawPtr pointee_ty =>
      (match args with
       | [arg0] =>
         let ty := operand_ty mir arg0
         let arg_ty : Option Ty :=
           match ty with
           | .rawPtr mt => some mt
           | .boxOf bt => some bt
           | _ => none
         (match arg_ty with
          | some a =>
            if sub_types ctx a pointee_ty location then s
            else s.report .badBoxFreeArg
          | none => s.report .boxFreeBadArgTy)
       | _ => s.report .boxFreeWrongArgCount)
    | _ => s.report .boxFreeNonRawPtr
  | _ => s.report .boxFreeShouldTake1Arg

/-- `TypeChecker::check_terminator`: re-derive the operand types of each
terminator and assert the documented relations; goto / resume / return /
generator-drop / unreachable / drop / false-edges need no checks. -/
def check_terminator (ctx : Ctx) (mir : Mir) (s : CState)
    (term : TerminatorKind) (location : Location) : CState :=
  match term with
  | .goto _ => s
  | .resume => s
  | .ret => s
  | .generatorDrop => s
  | .unreachable => s
  | .drop _ _ _ => s
  | .falseEdges _ _ => s
  | .dropAndReplace lv value target unwind =>
    let lv_ty := (lvalue_ty mir lv).to_ty
    let rv_ty := operand_ty mir value
    let s :=
      if sub_types ctx rv_ty lv_ty (start_location target) then s
      else s.report .badDropAndReplace
    (match unwind with
     | some u =>
       if sub_types ctx rv_ty lv_ty (start_location u) then s
       else s.report .badDropAndReplace
     | none => s)
  | .switchInt discr switch_ty _ =>
    let discr_ty := operand_ty mir discr
    let s := if sub_types ctx discr_ty switch_ty location then s
             else s.report .badSwitchInt
    if !switch_ty.is_integral && !switch_ty.is_char && !switch_ty.is_bool then
      s.report .badSwitchIntDiscrTy
    else s
  | .call func args destination _ =>
    let func_ty := operand_ty mir func
    match func_ty.fn_sig with
    | none => s.report .callToNonFunction
    | some sig =>
      let sig := normalize_sig ctx sig
      let s := check_call_dest ctx mir s sig destination
      if is_box_free ctx func then
        check_box_free_inputs ctx mir s sig args location
      else
        check_call_inputs ctx mir s sig args location
  | .assert cond msg _ _ =>
    let cond_ty := operand_ty mir cond
    let s := if cond_ty ≠ .bool then s.report .badAssertCond else s
    (match msg with
     | some (len, index) =>
       let s := if operand_ty mir len ≠ .usize then
                  s.report .boundsCheckLenNonUsize
                else s
       if operand_ty mir index ≠ .usize then
         s.report .boundsCheckIndexNonUsize
       else s
     | none => s)
  | .yield value _ _ =>
    let value_ty := operand_ty mir value
    match mir.yield_ty with
    | none => s.report .yieldInNonGenerator
    | some ty =>
      if sub_types ctx value_ty ty location then s else s.report .badYield

/-- `TypeChecker::assert_iscleanup`: the successor block's cleanup tag
must equal the expected one. -/
def assert_iscleanup (mir : Mir) (s : CState) (bb : Nat)
    (iscleanuppad : Bool) : CState :=
  if (mir.block bb).is_cleanup ≠ iscleanuppad then
    s.report (.cleanupMismatch bb iscleanuppad)
  else s

/-- `TypeChecker::check_iscleanup`: the cleanup-block bipartition rules,
per terminator kind of the block. -/
def check_iscleanup (mir : Mir) (s : CState) (block_data : BasicBlockData) :
    CState :=
  let is_cleanup := block_data.is_cleanup
  match block_data.terminator with
  | .goto target => assert_iscleanup mir s target is_cleanup
  | .switchInt _ _ targets =>
    targets.foldl (fun s target => assert_iscleanup mir s target is_cleanup) s
  | .resume => if !is_cleanup then s.report .resumeOnNonCleanup else s
  | .ret => if is_cleanup then s.report .returnOnCleanup else s
  | .generatorDrop => if is_cleanup then s.report .generatorDropInCleanup else s
  | .yield _ resume dropBlock =>
    let s := if is_cleanup then s.report .yieldInCleanup else s
    let s := assert_iscleanup mir s resume is_cleanup
    (match dropBlock with
     | some d => assert_iscleanup mir s d is_cleanup
     | none => s)
  | .unreachable => s
  | .drop _ target unwind =>
    let s := assert_iscleanup mir s target is_cleanup
    (match unwind with
     | some unwind =>
       let s := if is_cleanup then s.report .unwindOnCleanup else s
       assert_iscleanup mir s unwind true
     | none => s)
  | .dropAndReplace _ _ target unwind =>
    let s := assert_iscleanup mir s target is_cleanup
    (match unwind with
     | some unwind =>
       let s := if is_cleanup then s.report .unwindOnCleanup else s
       assert_iscleanup mir s unwind true
     | none => s)
  | .assert _ _ target cleanup =>
    let s := assert_iscleanup mir s target is_cleanup
    (match cleanup with
     | some unwind =>
       let s := if is_cleanup then s.report .unwindOnCleanup else s
       assert_iscleanup mir s unwind true
     | none => s)
  | .call _ _ destination cleanup =>
    let s :=
      match destination with
      | some (_, target) => assert_iscleanup mir s target is_cleanup
      | none => s
    (match cleanup with
     | some cleanup =>
       let s := if is_cleanup then s.report .cleanupOnCleanup else s
       assert_iscleanup mir s cleanup true
     | none => s)
  | .falseEdges real_target imaginary_targets =>
    let s := assert_iscleanup mir s real_target is_cleanup
    imaginary_targets.foldl
      (fun s target => assert_iscleanup mir s target is_cleanup) s

/-- `TypeChecker::check_local`: the return pointer and arguments are
exempt; any other local whose declared type is not statically sized
yields one user-facing `E0161` diagnostic per unique (type, span) pair,
deduplicated through the `reported_errors` set. -/
def check_local (ctx : Ctx) (mir : Mir) (s : CState) (l : Nat)
    (local_decl : LocalDecl) : CState :=
  match mir.local_kind l with
  | .returnPointer => s
  | .arg => s
  | .var =>
    if ctx.isSized local_decl.ty then s
    else if (local_decl.ty, local_decl.span) ∈ s.reported_errors then s
    else
      { s with
        reported_errors := (local_decl.ty, local_decl.span) :: s.reported_errors,
        diags := s.diags ++ [(local_decl.ty, local_decl.span)] }

/-- `TypeChecker::typeck_mir`: check every local's sizedness, then every
block's statements, terminator and cleanup invariant, in order. -/
def typeck_mir (ctx : Ctx) (mir : Mir) : CState :=
  let s : CState := ⟨[], [], []⟩
  let s := mir.local_decls.enum.foldl
    (fun s ld => check_local ctx mir s ld.1 ld.2) s
  mir.basic_blocks.enum.foldl
    (fun s bbd =>
      let s := bbd.2.statements.enum.foldl
        (fun s st => check_stmt ctx mir s st.2 ⟨bbd.1, st.1⟩) s
      let s := check_terminator ctx mir s bbd.2.terminator
        ⟨bbd.1, bbd.2.statements.length⟩
      check_iscleanup mir s bbd.2)
    s

/-- The pass's outputs: broken-MIR bug reports and user-facing
sizedness diagnostics. -/
structure PassOutput where
  bugs : List Bug
  diags : List (Ty × Nat)
  deriving DecidableEq, Repr

/-- `TypeckMir::run_pass`: skip entirely when the session error count is
already nonzero; otherwise run the `TypeVerifier` over the whole body
and, only if it reported no error, run the flow-sensitive
`TypeChecker`. -/
def run_pass (ctx : Ctx) (err_count : Nat) (mir : Mir) : PassOutput :=
  if err_count > 0 then ⟨[], []⟩
  else
    let v := visit_mir ctx mir
    if v.errors_reported then ⟨v.bugs, []⟩
    else
      let c := typeck_mir ctx mir
      ⟨v.bugs ++ c.bugs, c.diags⟩

/-- A concrete context for witnesses and counterexamples: the relation
service accepts exactly syntactic equality, normalization is the
identity, every type is sized, and the `box_free` lang item is `DefId`
99. -/
def ctx0 : Ctx :=
  { eqOk := fun a b => a = b
    subOk := fun a b => a = b
    normTy := id
    typeOf := fun _ => .usize
    isSized := fun _ => true
    box_free_fn := some 99 }

/-- `ctx0` with a sizedness query that rejects every type. -/
def ctx1 : Ctx := { ctx0 with isSized := fun _ => false }

/-- A body with a sane return type and local, whose two statements each
contain an independent sanitize-level failure (a deref projection on a
non-pointer base). -/
def mir1 : Mir :=
  { local_decls := [⟨.usize, 0⟩]
    arg_count := 0
    return_ty := .usize
    yield_ty := none
    basic_blocks :=
      [⟨[.assign (.projection (.localVar 0) .deref) (.use (.consume (.localVar 0))),
         .assign (.projection (.localVar 0) .deref) (.use (.consume (.localVar 0)))],
        .ret, false⟩] }

/-- The second projection of `sanitize_type`: the input type when it is
sane, the error marker otherwise. -/
theorem sanitize_type_snd (s : VState) (t : Ty) :
    (sanitize_type s t).2 =
      if t.needs_infer || t.has_escaping_regions || t.references_error
      then Ty.err else t := by
  unfold sanitize_type VState.report_err
  split <;> rfl

/-- C9: a type free of unresolved inference placeholders, escaping
scope-bound variables and error markers is returned unchanged by
`sanitize_type`, with no bug reported; in particular sanitizing twice
equals sanitizing once on such types. -/
theorem C9_sanitize_type_identity (s : VState) (t : Ty)
    (h1 : t.needs_infer = false) (h2 : t.has_escaping_regions = false)
    (h3 : t.references_error = false) :
    sanitize_type s t = (s, t) ∧
    sanitize_type (sanitize_type s t).1 (sanitize_type s t).2 = (s, t) := by
  have h : sanitize_type s t = (s, t) := by
    simp [sanitize_type, h1, h2, h3]
  refine ⟨h, ?_⟩
  rw [h]
  exact h

/-- Witness for C9 at the concrete type `usize`. -/
theorem C9_witness :
    Ty.usize.needs_infer = false ∧ Ty.usize.has_escaping_regions = false ∧
    Ty.usize.references_error = false ∧
    sanitize_type ⟨[], false⟩ .usize = (⟨[], false⟩, .usize) :=
  ⟨by decide, by decide, by decide,
   (C9_sanitize_type_identity ⟨[], false⟩ .usize (by decide) (by decide)
     (by decide)).1⟩

/-- C10: a field projection always resolves to the (sanitized)
redundantly-declared field type — never the structurally derived one —
whatever the outcome of the structural/declared comparison or an
out-of-range field index; resolution continues with that type. -/
theorem C10_field_resolves_to_declared (ctx : Ctx) (mir : Mir) (s : VState)
    (base : LvalueTy) (f : Nat) (fty : Ty) :
    (sanitize_projection ctx mir s base (.field f fty)).2 =
      .ty (if fty.needs_infer || fty.has_escaping_regions || fty.references_error
           then Ty.err else fty) := by
  rw [← sanitize_type_snd s fty]
  simp only [sanitize_projection]
  split
  next => split <;> rfl
  next => rfl

/-- C3: subslicing a fixed-size array of length `L` with `from = a`,
`to = b` yields an array of length `L - a - b` and no bug when
`a + b ≤ L`, and exactly one "too-small slice" bug together with the
error-marker type when `a + b > L`; a slice base passes through
unchanged; any other base yields a "slice of non-array" bug. -/
theorem C3_subslice (ctx : Ctx) (mir : Mir) (s : VState) (t u : Ty) (L a b : Nat) :
    (a + b ≤ L →
      sanitize_projection ctx mir s (.ty (.array t L)) (.subslice a b) =
        (s, .ty (.array t (L - a - b)))) ∧
    (L < a + b →
      sanitize_projection ctx mir s (.ty (.array t L)) (.subslice a b) =
        ({ bugs := s.bugs ++ [.tooSmallSlice], errors_reported := true }, .ty .err)) ∧
    (sanitize_projection ctx mir s (.ty (.slice t)) (.subslice a b) =
      (s, .ty (.slice t))) ∧
    ((∀ t' n, u ≠ .array t' n) → (∀ t', u ≠ .slice t') →
      sanitize_projection ctx mir s (.ty u) (.subslice a b) =
        ({ bugs := s.bugs ++ [.sliceOfNonArray], errors_reported := true },
         .ty .err)) := by
  refine ⟨?_, ?_, ?_, ?_⟩
  · intro h
    simp [sanitize_projection, LvalueTy.to_ty, h, Nat.sub_sub]
  · intro h
    simp [sanitize_projection, LvalueTy.to_ty, Nat.not_le.mpr h, VState.report_err]
  · rfl
  · intro h1 h2
    cases u
    case array t' n => exact absurd rfl (h1 t' n)
    case slice t' => exact absurd rfl (h2 t')
    all_goals rfl

/-- Witness for C3: a length-5 array subsliced with `from = 2`, `to = 1`
resolves to a length-2 array; with `from = 4`, `to = 2` it reports one
too-small-slice bug and resolves to the error type. -/
theorem C3_witness :
    (2 + 1 ≤ 5 ∧
      sanitize_projection ctx0 mir1 ⟨[], false⟩ (.ty (.array .usize 5))
        (.subslice 2 1) = (⟨[], false⟩, .ty (.array .usize 2))) ∧
    (5 < 4 + 2 ∧
      sanitize_projection ctx0 mir1 ⟨[], false⟩ (.ty (.array .usize 5))
        (.subslice 4 2) = (⟨[.tooSmallSlice], true⟩, .ty .err)) :=
  ⟨⟨by decide, (C3_subslice ctx0 mir1 ⟨[], false⟩ .usize .usize 5 2 1).1 (by decide)⟩,
   ⟨by decide,
    (C3_subslice ctx0 mir1 ⟨[], false⟩ .usize .usize 5 4 2).2.1 (by decide)⟩⟩

/-- C2 counterexample: a generator with two upvars and no state fields,
projected at the out-of-range field index 5, reports a field count of
`1` (the state-field count plus one), not `2` (upvar count plus
state-field count) as the claim states. -/
theorem C2_counterexample :
    (field_ty ctx0 ⟨[], false⟩
        (.ty (.generator 0 (.cons .bool (.cons .bool .nil)) .nil)) 5).2 =
      .error (.outOfRange 1) ∧
    (TyList.cons .bool (.cons .bool .nil)).length + TyList.nil.length ≠ 1 :=
  ⟨rfl, by decide⟩

/-- C2 (amended): field-type resolution on a generator base tries the
upvar index first, then falls back to the generator's state-field
index, and when the index is out of range of both it returns an
out-of-range error whose field count is the number of state fields plus
one. -/
theorem C2_generator_field (ctx : Ctx) (s : VState) (d : Nat)
    (upvars fields : TyList) (f : Nat) :
    (∀ t, upvars.get? f = some t →
      field_ty ctx s (.ty (.generator d upvars fields)) f = (s, .ok t)) ∧
    (upvars.get? f = none → ∀ t, fields.get? f = some t →
      field_ty ctx s (.ty (.generator d upvars fields)) f = (s, .ok t)) ∧
    (upvars.get? f = none → fields.get? f = none →
      field_ty ctx s (.ty (.generator d upvars fields)) f =
        (s, .error (.outOfRange (fields.length + 1)))) := by
  refine ⟨?_, ?_, ?_⟩ <;> intros <;> simp_all [field_ty]

/-- Witness for C2: a generator with one upvar and one state field,
projected at index 7, reports an out-of-range error with field count
`2`. -/
theorem C2_witness :
    field_ty ctx0 ⟨[], false⟩
        (.ty (.generator 0 (.cons .bool .nil) (.cons .usize .nil))) 7 =
      (⟨[], false⟩, .error (.outOfRange 2)) :=
  (C2_generator_field ctx0 ⟨[], false⟩ 0 (.cons .bool .nil) (.cons .usize .nil)
    7).2.2 rfl rfl

/-- C1 counterexample: on `mir1` the resolver hits a sanitize-level
failure in the first statement and still reports the structurally
unrelated failure in the second statement — the whole pass yields two
bug reports, not one. -/
theorem C1_counterexample :
    (visit_mir ctx0 mir1).bugs = [.derefNonPointer, .derefNonPointer] ∧
    (visit_mir ctx0 mir1).errors_reported = true ∧
    (run_pass ctx0 0 mir1).bugs.length = 2 ∧
    (run_pass ctx0 0 mir1).bugs.length ≠ 1 :=
  ⟨rfl, rfl, rfl, by decide⟩

/-- C1 (amended): when the resolver (`TypeVerifier`) reports any
error-flagged bug for a body, the pass output is exactly the resolver's
bug reports — one per sanitize-level failure it walked past — and the
flow-sensitive checkers (consistency, cleanup, sizedness) never run:
no checker bug and no sizedness diagnostic is produced. -/
theorem C1_resolver_short_circuit (ctx : Ctx) (mir : Mir)
    (h : (visit_mir ctx mir).errors_reported = true) :
    run_pass ctx 0 mir = ⟨(visit_mir ctx mir).bugs, []⟩ := by
  simp [run_pass, h]

/-- Witness for C1 at the concrete body `mir1`. -/
theorem C1_witness :
    (visit_mir ctx0 mir1).errors_reported = true ∧
    run_pass ctx0 0 mir1 = ⟨(visit_mir ctx0 mir1).bugs, []⟩ :=
  ⟨rfl, C1_resolver_short_circuit ctx0 mir1 rfl⟩

/-- The per-argument loop of `check_call_inputs` never reports the
arity bug (it reports only per-argument `badArg` bugs). -/
theorem check_args_loop_arity_count (ctx : Ctx) (mir : Mir) (s : CState)
    (n : Nat) (l : Location) (ps : List (Ty × Operand)) :
    ((check_args_loop ctx mir s n l ps).bugs.count .wrongNumberOfArgs) =
      s.bugs.count .wrongNumberOfArgs := by
  induction ps generalizing s n with
  | nil => rfl
  | cons p rest ih =>
    rcases p with ⟨fn_arg, op_arg⟩
    simp only [check_args_loop]
    rw [ih]
    split
    · rfl
    · simp [CState.report, List.count_append]

/-- C4: `check_call_inputs` reports the "wrong number of args" bug
exactly once if and only if the argument count is below the parameter
count, or above it while the signature is not variadic; a variadic call
with extra arguments adds no arity bug. -/
theorem C4_call_arity (ctx : Ctx) (mir : Mir) (s : CState) (sig : FnSig)
    (args : List Operand) (l : Location) :
    (check_call_inputs ctx mir s sig args l).bugs.count .wrongNumberOfArgs =
      s.bugs.count .wrongNumberOfArgs +
        (if args.length < sig.inputs.length ∨
            (args.length > sig.inputs.length ∧ sig.variadic = false)
         then 1 else 0) := by
  unfold check_call_inputs
  rw [check_args_loop_arity_count]
  by_cases hb : (args.length < sig.inputs.length ||
      (args.length > sig.inputs.length && !sig.variadic)) = true
  · rw [if_pos hb, if_pos]
    · simp [CState.report, List.count_append]
    · simpa using hb
  · rw [if_neg hb, if_neg]
    · simp
    · simpa using hb

/-- C5: the cleanup-block invariant rules — `Resume` bugs iff the block
is not cleanup; `Return` and `GeneratorDrop` bug iff it is cleanup; for
`Drop`, `DropAndReplace` and `Assert` the normal target's tag must
equal the block's tag, a present unwind/failure successor must be
tagged cleanup, and a further bug is reported when the block is itself
already cleanup. -/
theorem C5_cleanup_rules (mir : Mir) (s : CState)
    (stmts : List StatementKind) (c : Bool) :
    ((check_iscleanup mir s ⟨stmts, .resume, c⟩).bugs =
      s.bugs ++ (if c then [] else [.resumeOnNonCleanup])) ∧
    ((check_iscleanup mir s ⟨stmts, .ret, c⟩).bugs =
      s.bugs ++ (if c then [.returnOnCleanup] else [])) ∧
    ((check_iscleanup mir s ⟨stmts, .generatorDrop, c⟩).bugs =
      s.bugs ++ (if c then [.generatorDropInCleanup] else [])) ∧
    (∀ lv target unwind,
      (check_iscleanup mir s ⟨stmts, .drop lv target unwind, c⟩).bugs =
        s.bugs ++
          (if (mir.block target).is_cleanup ≠ c
           then [.cleanupMismatch target c] else []) ++
          (match unwind with
           | some u =>
             (if c then [.unwindOnCleanup] else []) ++
             (if (mir.block u).is_cleanup ≠ true
              then [.cleanupMismatch u true] else [])
           | none => [])) ∧
    (∀ lv value target unwind,
      (check_iscleanup mir s
          ⟨stmts, .dropAndReplace lv value target unwind, c⟩).bugs =
        s.bugs ++
          (if (mir.block target).is_cleanup ≠ c
           then [.cleanupMismatch target c] else []) ++
          (match unwind with
           | some u =>
             (if c then [.unwindOnCleanup] else []) ++
             (if (mir.block u).is_cleanup ≠ true
              then [.cleanupMismatch u true] else [])
           | none => [])) ∧
    (∀ cond msg target failure,
      (check_iscleanup mir s ⟨stmts, .assert cond msg target failure, c⟩).bugs =
        s.bugs ++
          (if (mir.block target).is_cleanup ≠ c
           then [.cleanupMismatch target c] else []) ++
          (match failure with
           | some u =>
             (if c then [.unwindOnCleanup] else []) ++
             (if (mir.block u).is_cleanup ≠ true
              then [.cleanupMismatch u true] else [])
           | none => [])) := by
  refine ⟨?_, ?_, ?_, ?_, ?_, ?_⟩
  · cases c <;> simp [check_iscleanup, CState.report]
  · cases c <;> simp [check_iscleanup, CState.report]
  · cases c <;> simp [check_iscleanup, CState.report]
  · intro lv target unwind
    cases unwind <;>
      simp [check_iscleanup, assert_iscleanup, CState.report] <;>
      split_ifs <;> simp_all [CState.report]
  · intro lv value target unwind
    cases unwind <;>
      simp [check_iscleanup, assert_iscleanup, CState.report] <;>
      split_ifs <;> simp_all [CState.report]
  · intro cond msg target failure
    cases failure <;>
      simp [check_iscleanup, assert_iscleanup, CState.report] <;>
      split_ifs <;> simp_all [CState.report]

/-- C6: a `DropAndReplace` terminator asserts that the new value's type
is a subtype of the replaced place's type at the start location of the
normal target block and, when an unwind block is present, additionally
at the start location of the unwind block; each failed check reports
one "bad DropAndReplace" bug. -/
theorem C6_drop_and_replace (ctx : Ctx) (mir : Mir) (s : CState)
    (lv : Lvalue) (value : Operand) (target : Nat) (unwind : Option Nat)
    (l : Location) :
    (check_terminator ctx mir s (.dropAndReplace lv value target unwind) l).bugs =
      s.bugs ++
        (if sub_types ctx (operand_ty mir value) ((lvalue_ty mir lv).to_ty)
              (start_location target)
         then [] else [.badDropAndReplace]) ++
        (match unwind with
         | some u =>
           if sub_types ctx (operand_ty mir value) ((lvalue_ty mir lv).to_ty)
                (start_location u)
           then [] else [.badDropAndReplace]
         | none => []) := by
  cases unwind <;>
    simp only [check_terminator, sub_types] <;>
    split_ifs <;>
    simp_all [CState.report, sub_types]

/-- C7: a call to the `box_free` intrinsic whose signature takes one
raw-pointer parameter and which passes one argument whose type, after
unwrapping a raw pointer or an owning box, is an accepted subtype of
the declared pointee type, reports no bug; the same call with two
arguments reports the wrong-number-of-args bug. -/
theorem C7_box_free (ctx : Ctx) (mir : Mir) (s : CState) (p out : Ty)
    (vr : Bool) (arg : Operand) (a : Ty) (l : Location)
    (h1 : operand_ty mir arg = .rawPtr a ∨ operand_ty mir arg = .boxOf a)
    (h2 : ctx.subOk a p = true) :
    check_box_free_inputs ctx mir s ⟨[.rawPtr p], out, vr⟩ [arg] l = s ∧
    (∀ b1 b2 : Operand,
      check_box_free_inputs ctx mir s ⟨[.rawPtr p], out, vr⟩ [b1, b2] l =
        s.report .boxFreeWrongArgCount) ∧
    (∀ t : Ty, ∀ d : Nat, is_box_free ctx (.constant t (some d)) =
      (some d = ctx.box_free_fn)) := by
  refine ⟨?_, ?_, ?_⟩
  · rcases h1 with h | h <;>
      simp [check_box_free_inputs, h, sub_types, h2]
  · intro b1 b2
    rfl
  · intro t d
    simp [is_box_free]

/-- Witness for C7: concrete `box_free` input check on an owning-box
argument with matching pointee type. -/
theorem C7_witness :
    check_box_free_inputs ctx0 mir1 ⟨[], [], []⟩ ⟨[.rawPtr .usize], .usize, false⟩
        [.constant (.boxOf .usize) none] ⟨0, 0⟩ = ⟨[], [], []⟩ ∧
    check_box_free_inputs ctx0 mir1 ⟨[], [], []⟩ ⟨[.rawPtr .usize], .usize, false⟩
        [.constant (.boxOf .usize) none, .constant (.boxOf .usize) none] ⟨0, 0⟩ =
      CState.report ⟨[], [], []⟩ .boxFreeWrongArgCount := by
  have h := C7_box_free ctx0 mir1 ⟨[], [], []⟩ .usize .usize false
    (.constant (.boxOf .usize) none) .usize ⟨0, 0⟩ (Or.inr rfl) (by decide)
  exact ⟨h.1, h.2.1 _ _⟩

/-- C8: the sizedness checker skips the return slot and arguments,
skips statically sized locals, and otherwise emits exactly one
user-facing diagnostic per unique (type, span) pair: a second violation
at the same pair changes nothing. -/
theorem C8_sizedness (ctx : Ctx) (mir : Mir) (s : CState) (l : Nat)
    (d : LocalDecl) :
    ((mir.local_kind l = .returnPointer ∨ mir.local_kind l = .arg) →
      check_local ctx mir s l d = s) ∧
    (ctx.isSized d.ty = true → check_local ctx mir s l d = s) ∧
    (mir.local_kind l = .var → ctx.isSized d.ty = false →
      (d.ty, d.span) ∉ s.reported_errors →
      (check_local ctx mir s l d).diags = s.diags ++ [(d.ty, d.span)] ∧
      (check_local ctx mir s l d).bugs = s.bugs ∧
      ∀ l2, mir.local_kind l2 = .var →
        check_local ctx mir (check_local ctx mir s l d) l2 d =
          check_local ctx mir s l d) := by
  refine ⟨?_, ?_, ?_⟩
  · rintro (h | h) <;> simp [check_local, h]
  · intro h
    cases hk : mir.local_kind l <;> simp [check_local, hk, h]
  · intro hk hns hmem
    refine ⟨?_, ?_, ?_⟩
    · simp [check_local, hk, hns, hmem]
    · simp [check_local, hk, hns, hmem]
    · intro l2 hk2
      simp [check_local, hk, hk2, hns, hmem]

/-- Witness for C8: an unsized local checked twice at the same
(type, span) pair yields a single diagnostic. -/
theorem C8_witness :
    (check_local ctx1 mir1 ⟨[], [], []⟩ 1 ⟨.slice .usize, 7⟩).diags =
      [(.slice .usize, 7)] ∧
    check_local ctx1 mir1 (check_local ctx1 mir1 ⟨[], [], []⟩ 1 ⟨.slice .usize, 7⟩)
        1 ⟨.slice .usize, 7⟩ =
      check_local ctx1 mir1 ⟨[], [], []⟩ 1 ⟨.slice .usize, 7⟩ := by
  have h := (C8_sizedness ctx1 mir1 ⟨[], [], []⟩ 1 ⟨.slice .usize, 7⟩).2.2
    rfl rfl (by simp)
  exact ⟨h.1, h.2.2 1 rfl⟩
